import Mathlib

/-!
Verification of the version-gated cache invalidation routine of
`APP/src-tauri/src/lib.rs`.

The routine `check_and_clear_cache_if_needed` resolves the platform
application-data directory, reads the `.app_version` marker file, trims the
stored text, and — when the trimmed value is empty or differs from the
compiled-in `APP_VERSION` — deletes the `webview/` and `cache/`
subdirectories, re-creates the marker file parent directory, and writes the
current version to the marker file.  All filesystem failures are handled
locally (logged or ignored) and never propagate.

The embedding below models:
  * the relevant filesystem state (`FS`): existence of the app-data
    directory, the marker file content, existence of the two cache
    subdirectories, and an opaque remainder of the filesystem that the
    routine never names;
  * an environment (`Env`) of success/failure outcomes of each fallible
    operating-system call made by the routine;
  * the fallible primitives (`read_to_string`, `remove_dir_all` on each
    directory, `create_dir_all`, `fs::write`) as `Except`-valued functions;
  * the routine itself, producing the final filesystem state, the list of
    emitted log lines, and the trace of attempted filesystem operations.

Rust strings are modelled as `List Char`; `str::trim` (which strips Unicode
whitespace; the markers at play only ever carry ASCII whitespace) is
modelled by `rustTrim` below using `Char.isWhitespace`.
-/

namespace CertifyApp

/-- Model of a Rust `String` / `&str`: a list of characters. -/
abbrev RStr := List Char

/-- `const APP_VERSION: &str = "2.0.0";` -/
def APP_VERSION : RStr := "2.0.0".toList

/-- Model of `str::trim`: drop leading and trailing whitespace characters. -/
def rustTrim (s : RStr) : RStr :=
  ((s.dropWhile Char.isWhitespace).reverse.dropWhile Char.isWhitespace).reverse

/-- The filesystem state the routine can observe or affect.

`appDataDirExists` — whether the platform app-data directory itself exists;
`marker` — content of `<app_data_dir>/.app_version` (`none` = file missing);
`webview` / `cache` — whether `<app_data_dir>/webview/` resp.
`<app_data_dir>/cache/` exist;
`other` — every filesystem path the routine never names, carried opaquely. -/
structure FS where
  appDataDirExists : Bool
  marker : Option RStr
  webview : Bool
  cache : Bool
  other : List (String × String)
  deriving DecidableEq

/-- Outcomes of the fallible operating-system calls the routine makes.
Each flag tells whether the corresponding call succeeds when reached.

`appDataDirOk1` — `app.path().app_data_dir()` inside `get_version_file_path`;
`appDataDirOk2` — the second `app.path().app_data_dir()` call guarding the
cache-clearing block;
`readOk` — `fs::read_to_string` has no permission/encoding error (a missing
file fails the read regardless);
`removeWebviewOk` / `removeCacheOk` — the two `fs::remove_dir_all` calls;
`createDirOk` — `fs::create_dir_all` can create the parent directory when it
is missing;
`writeOk` — `fs::write` has no error beyond a missing parent directory. -/
structure Env where
  appDataDirOk1 : Bool
  appDataDirOk2 : Bool
  readOk : Bool
  removeWebviewOk : Bool
  removeCacheOk : Bool
  createDirOk : Bool
  writeOk : Bool
  deriving DecidableEq

/-- One `println!` emitted by the routine (payloads kept where the source
interpolates a value). -/
inductive LogMsg where
  /-- `"Version changed from {} to '{}', clearing all cache"`. -/
  | versionChanged (label : RStr)
  /-- `"✓ Cleared webview cache directory"`. -/
  | clearedWebview
  /-- `"✗ Failed to clear webview cache: {}"`. -/
  | failedWebview (e : String)
  /-- `"✓ Cleared general cache directory"` (printed unconditionally after
  the `cache/` removal, whose error the source discards with `let _ =`). -/
  | clearedCache
  /-- `"✓ Version file updated to {}"`. -/
  | versionUpdated
  /-- `"✗ Failed to write version file: {}"`. -/
  | failedWrite (e : String)
  /-- `"App version {} is current, no cache clear needed"`. -/
  | versionCurrent
  deriving DecidableEq

/-- A filesystem operation attempted by the routine, in execution order. -/
inductive FsEvent where
  | readMarker
  | removeWebview
  | removeCache
  | createParentDir
  | writeMarker
  deriving DecidableEq

/-- Result of one run: final filesystem state, log lines, operation trace. -/
structure RunResult where
  fs : FS
  logs : List LogMsg
  events : List FsEvent
  deriving DecidableEq

/-- `fn get_version_file_path(app) -> Option<PathBuf>`: resolves the
app-data directory and joins `.app_version`.  The path, when resolution
succeeds, is always `<app_data_dir>/.app_version`, which the `FS` structure
represents positionally, so only success is informative. -/
def get_version_file_path (env : Env) : Option Unit :=
  if env.appDataDirOk1 then some () else none

/-- `fs::read_to_string(&version_file)`: fails when the file is missing or
when the read hits a permission/encoding error. -/
def read_to_string (env : Env) (fs : FS) : Except String RStr :=
  match fs.marker with
  | none => Except.error "NotFound"
  | some s => if env.readOk then Except.ok s else Except.error "PermissionDenied"

/-- `fs::remove_dir_all(&webview_dir)`: on success the directory is gone; on
failure the state is unchanged. -/
def remove_dir_all_webview (env : Env) (fs : FS) : Except String FS :=
  if env.removeWebviewOk then Except.ok { fs with webview := false }
  else Except.error "PermissionDenied"

/-- `fs::remove_dir_all(&cache_dir)`: on success the directory is gone; on
failure the state is unchanged. -/
def remove_dir_all_cache (env : Env) (fs : FS) : Except String FS :=
  if env.removeCacheOk then Except.ok { fs with cache := false }
  else Except.error "PermissionDenied"

/-- `fs::create_dir_all(parent)` on the marker file parent (which is the
app-data directory itself): trivially succeeds when the directory already
exists. -/
def create_dir_all (env : Env) (fs : FS) : Except String FS :=
  if fs.appDataDirExists then Except.ok fs
  else if env.createDirOk then Except.ok { fs with appDataDirExists := true }
  else Except.error "PermissionDenied"

/-- `fs::write(&version_file, APP_VERSION)`: requires the parent directory
to exist, overwrites any previous content. -/
def write_version_file (env : Env) (fs : FS) : Except String FS :=
  if env.writeOk && fs.appDataDirExists then
    Except.ok { fs with marker := some APP_VERSION }
  else Except.error "WriteError"

/-- `fs::read_to_string(&version_file).unwrap_or_default()`: any read
failure collapses to the empty string. -/
def stored_version_raw (env : Env) (fs : FS) : RStr :=
  match read_to_string env fs with
  | Except.ok s => s
  | Except.error _ => []

/-- The value the routine actually compares: the read result, trimmed. -/
def stored_version_trimmed (env : Env) (fs : FS) : RStr :=
  rustTrim (stored_version_raw env fs)

/-- The guard `stored_version.is_empty() || stored_version != APP_VERSION`
applied to the trimmed stored value. -/
def shouldInvalidate (s : RStr) : Bool :=
  s.isEmpty || s != APP_VERSION

/-- `fn check_and_clear_cache_if_needed(app)`, translated statement by
statement from the source.  Returns the final filesystem state, the log
lines printed, and the trace of attempted filesystem operations. -/
def check_and_clear_cache_if_needed (env : Env) (fs : FS) : RunResult :=
  match get_version_file_path env with
  | none => ⟨fs, [], []⟩
  | some _ =>
    let stored_version := stored_version_raw env fs
    let stored_version := rustTrim stored_version
    if shouldInvalidate stored_version then
      let version_label : RStr :=
        if stored_version.isEmpty then "none (fresh install or old cache)".toList
        else stored_version
      -- `if let Ok(data_dir) = app.path().app_data_dir()`
      let step1 : FS × List LogMsg × List FsEvent :=
        if env.appDataDirOk2 then
          let stepW : FS × List LogMsg × List FsEvent :=
            if fs.webview then
              match remove_dir_all_webview env fs with
              | Except.ok fsNew => (fsNew, [LogMsg.clearedWebview], [FsEvent.removeWebview])
              | Except.error e => (fs, [LogMsg.failedWebview e], [FsEvent.removeWebview])
            else (fs, [], [])
          let stepC : FS × List LogMsg × List FsEvent :=
            if stepW.1.cache then
              -- `let _ = fs::remove_dir_all(&cache_dir);` — error discarded,
              -- success message printed regardless.
              match remove_dir_all_cache env stepW.1 with
              | Except.ok fsNew => (fsNew, [LogMsg.clearedCache], [FsEvent.removeCache])
              | Except.error _ => (stepW.1, [LogMsg.clearedCache], [FsEvent.removeCache])
            else (stepW.1, [], [])
          (stepC.1, stepW.2.1 ++ stepC.2.1, stepW.2.2 ++ stepC.2.2)
        else (fs, [], [])
      -- `if let Some(parent) = version_file.parent() { let _ = fs::create_dir_all(parent); }`
      -- The parent of `<app_data_dir>/.app_version` is always `Some`.
      let fs2 : FS :=
        match create_dir_all env step1.1 with
        | Except.ok fsNew => fsNew
        | Except.error _ => step1.1
      let step3 : FS × List LogMsg :=
        match write_version_file env fs2 with
        | Except.ok fsNew => (fsNew, [LogMsg.versionUpdated])
        | Except.error e => (fs2, [LogMsg.failedWrite e])
      ⟨step3.1,
       LogMsg.versionChanged version_label :: (step1.2.1 ++ step3.2),
       FsEvent.readMarker :: (step1.2.2 ++ [FsEvent.createParentDir, FsEvent.writeMarker])⟩
    else
      ⟨fs, [LogMsg.versionCurrent], [FsEvent.readMarker]⟩

/-- Whether a trace contains a deletion attempt on `webview/` or `cache/`. -/
def containsRemoval (l : List FsEvent) : Bool :=
  l.any fun e => e == FsEvent.removeWebview || e == FsEvent.removeCache

/-- Whether some marker-file write occurs strictly before some deletion
attempt in a trace. -/
def writeBeforeRemoval : List FsEvent → Bool
  | [] => false
  | FsEvent.writeMarker :: rest => containsRemoval rest || writeBeforeRemoval rest
  | _ :: rest => writeBeforeRemoval rest

/-- The routine re-expressed in the error monad: each operating-system call
is an `Except`-valued primitive, and every one of its outcomes is consumed
on the spot — mirroring how the source consumes each `io::Result` with
`unwrap_or_default`, `match`, `if let`, or `let _ =`, and never uses the
error-propagation operator or a panicking unwrap. -/
def check_monadic (env : Env) (fs : FS) : Except String RunResult := do
  match get_version_file_path env with
  | none => return ⟨fs, [], []⟩
  | some _ =>
    let stored_version := stored_version_raw env fs
    let stored_version := rustTrim stored_version
    if shouldInvalidate stored_version then
      let version_label : RStr :=
        if stored_version.isEmpty then "none (fresh install or old cache)".toList
        else stored_version
      let step1 : FS × List LogMsg × List FsEvent :=
        if env.appDataDirOk2 then
          let stepW : FS × List LogMsg × List FsEvent :=
            if fs.webview then
              match remove_dir_all_webview env fs with
              | Except.ok fsNew => (fsNew, [LogMsg.clearedWebview], [FsEvent.removeWebview])
              | Except.error e => (fs, [LogMsg.failedWebview e], [FsEvent.removeWebview])
            else (fs, [], [])
          let stepC : FS × List LogMsg × List FsEvent :=
            if stepW.1.cache then
              match remove_dir_all_cache env stepW.1 with
              | Except.ok fsNew => (fsNew, [LogMsg.clearedCache], [FsEvent.removeCache])
              | Except.error _ => (stepW.1, [LogMsg.clearedCache], [FsEvent.removeCache])
            else (stepW.1, [], [])
          (stepC.1, stepW.2.1 ++ stepC.2.1, stepW.2.2 ++ stepC.2.2)
        else (fs, [], [])
      let fs2 : FS :=
        match create_dir_all env step1.1 with
        | Except.ok fsNew => fsNew
        | Except.error _ => step1.1
      let step3 : FS × List LogMsg :=
        match write_version_file env fs2 with
        | Except.ok fsNew => (fsNew, [LogMsg.versionUpdated])
        | Except.error e => (fs2, [LogMsg.failedWrite e])
      return ⟨step3.1,
        LogMsg.versionChanged version_label :: (step1.2.1 ++ step3.2),
        FsEvent.readMarker :: (step1.2.2 ++ [FsEvent.createParentDir, FsEvent.writeMarker])⟩
    else
      return ⟨fs, [LogMsg.versionCurrent], [FsEvent.readMarker]⟩

/-- Environment in which every operating-system call succeeds. -/
def envAllOk : Env := ⟨true, true, true, true, true, true, true⟩

/-- Environment in which only the `webview/` deletion fails. -/
def envWebviewFails : Env := ⟨true, true, true, false, true, true, true⟩

/-- Environment in which both directory deletions fail. -/
def envBothRemovalsFail : Env := ⟨true, true, true, false, false, true, true⟩

/-- Environment in which resolving the app-data directory fails. -/
def envNoPath : Env := ⟨false, true, true, true, true, true, true⟩

/-- Marker holds the current version followed by a newline. -/
def fsNewline : FS := ⟨true, some "2.0.0\n".toList, true, true, []⟩

/-- Marker holds an older version; both cache directories exist. -/
def fsMismatch : FS := ⟨true, some "1.9.0".toList, true, true, []⟩

/-- Marker holds a semantic-version-wise equal but textually shorter value. -/
def fsTwoZero : FS := ⟨true, some "2.0".toList, true, true, []⟩

/-- Marker file missing; both cache directories exist. -/
def fsFresh : FS := ⟨true, none, true, true, []⟩

/-- The invalidation guard is true exactly when the trimmed value is empty
or differs from the current version. -/
theorem shouldInvalidate_true_iff (s : RStr) :
    shouldInvalidate s = true ↔ (s.isEmpty = true ∨ s ≠ APP_VERSION) := by
  simp [shouldInvalidate, bne_iff_ne]

/-- The invalidation guard is false exactly when the trimmed value equals
the current version (which is nonempty). -/
theorem shouldInvalidate_false_iff (s : RStr) :
    shouldInvalidate s = false ↔ s = APP_VERSION := by
  simp only [shouldInvalidate, Bool.or_eq_false_iff, bne_eq_false_iff_eq]
  constructor
  · exact fun h => h.2
  · rintro rfl
    exact ⟨by decide, rfl⟩

/-- Trimming the current version string is the identity. -/
theorem rustTrim_app_version : rustTrim APP_VERSION = APP_VERSION := by decide

/-- The read result only depends on the marker content. -/
theorem stored_version_trimmed_congr (env : Env) (fs1 fs2 : FS)
    (h : fs1.marker = fs2.marker) :
    stored_version_trimmed env fs1 = stored_version_trimmed env fs2 := by
  simp [stored_version_trimmed, stored_version_raw, read_to_string, h]

/-- When the app-data directory cannot be resolved, the routine does
nothing at all. -/
theorem check_no_appdata (env : Env) (fs : FS) (h : env.appDataDirOk1 = false) :
    check_and_clear_cache_if_needed env fs = ⟨fs, [], []⟩ := by
  simp [check_and_clear_cache_if_needed, get_version_file_path, h]

/-- When the trimmed stored value equals the current version, the routine
only logs that the version is current. -/
theorem check_noop (env : Env) (fs : FS) (h1 : env.appDataDirOk1 = true)
    (h : stored_version_trimmed env fs = APP_VERSION) :
    check_and_clear_cache_if_needed env fs
      = ⟨fs, [LogMsg.versionCurrent], [FsEvent.readMarker]⟩ := by
  have hsi : shouldInvalidate (stored_version_trimmed env fs) = false :=
    (shouldInvalidate_false_iff _).mpr h
  simp only [stored_version_trimmed] at hsi
  simp [check_and_clear_cache_if_needed, get_version_file_path, h1, hsi]

/-- Closed form of an invalidation run: each directory is gone exactly when
the second path resolution and its deletion succeed, the parent directory
is created when possible, and the marker receives the current version
exactly when the write succeeds into an existing parent. -/
theorem check_inv (env : Env) (fs : FS) (h1 : env.appDataDirOk1 = true)
    (hg : shouldInvalidate (stored_version_trimmed env fs) = true) :
    check_and_clear_cache_if_needed env fs =
      ⟨{ appDataDirExists := fs.appDataDirExists || env.createDirOk,
         marker := if env.writeOk && (fs.appDataDirExists || env.createDirOk)
                   then some APP_VERSION else fs.marker,
         webview := fs.webview && !(env.appDataDirOk2 && env.removeWebviewOk),
         cache := fs.cache && !(env.appDataDirOk2 && env.removeCacheOk),
         other := fs.other },
       LogMsg.versionChanged (if (stored_version_trimmed env fs).isEmpty
           then "none (fresh install or old cache)".toList
           else stored_version_trimmed env fs)
         :: ((if env.appDataDirOk2 && fs.webview
              then [if env.removeWebviewOk then LogMsg.clearedWebview
                    else LogMsg.failedWebview "PermissionDenied"] else [])
           ++ (if env.appDataDirOk2 && fs.cache then [LogMsg.clearedCache] else [])
           ++ [if env.writeOk && (fs.appDataDirExists || env.createDirOk)
               then LogMsg.versionUpdated else LogMsg.failedWrite "WriteError"]),
       FsEvent.readMarker
         :: ((if env.appDataDirOk2 && fs.webview then [FsEvent.removeWebview] else [])
           ++ (if env.appDataDirOk2 && fs.cache then [FsEvent.removeCache] else [])
           ++ [FsEvent.createParentDir, FsEvent.writeMarker])⟩ := by
  simp only [stored_version_trimmed] at hg ⊢
  obtain ⟨a, m, w, c, o⟩ := fs
  obtain ⟨o1, o2, r, rw, rc, cd, wr⟩ := env
  simp only [Env.appDataDirOk1] at h1
  subst h1
  cases o2 <;> cases w <;> cases c <;> cases rw <;> cases rc <;> cases a <;> cases cd <;> cases wr <;>
    simp_all [check_and_clear_cache_if_needed, get_version_file_path,
      remove_dir_all_webview, remove_dir_all_cache, create_dir_all, write_version_file]

/-- The error-monad presentation never produces an error and agrees with
the pure presentation. -/
theorem check_monadic_eq_ok (env : Env) (fs : FS) :
    check_monadic env fs = Except.ok (check_and_clear_cache_if_needed env fs) := by
  unfold check_monadic check_and_clear_cache_if_needed
  cases get_version_file_path env
  · rfl
  · dsimp only
    split <;> rfl

/-- States whose marker, cache directories, and app-data directory are
already where an invalidation run would leave them are fixed points of the
routine, whichever branch a run takes. -/
theorem check_fixed_point (env : Env) (fs1 : FS) (h1 : env.appDataDirOk1 = true)
    (ha : (fs1.appDataDirExists || env.createDirOk) = fs1.appDataDirExists)
    (hw : (fs1.webview && !(env.appDataDirOk2 && env.removeWebviewOk)) = fs1.webview)
    (hc : (fs1.cache && !(env.appDataDirOk2 && env.removeCacheOk)) = fs1.cache)
    (hm : (if env.writeOk && fs1.appDataDirExists then some APP_VERSION else fs1.marker)
          = fs1.marker) :
    (check_and_clear_cache_if_needed env fs1).fs = fs1 := by
  cases hsi : shouldInvalidate (stored_version_trimmed env fs1) with
  | false =>
      rw [check_noop env fs1 h1 ((shouldInvalidate_false_iff _).mp hsi)]
  | true =>
      rw [check_inv env fs1 h1 hsi]
      dsimp only
      rw [ha, hw, hc, hm]

/-- C1 counterexample: the stored value 2.0.0 followed by a newline differs
from the current version as a raw string, yet a run in which every
operating-system call succeeds leaves the webview directory in place and
does not rewrite the marker, because the code compares trimmed values. -/
theorem c1_counterexample :
    fsNewline.marker = some ("2.0.0\n".toList) ∧
    "2.0.0\n".toList ≠ APP_VERSION ∧
    (check_and_clear_cache_if_needed envAllOk fsNewline).fs.webview = true ∧
    (check_and_clear_cache_if_needed envAllOk fsNewline).fs.marker ≠ some APP_VERSION := by
  decide

/-- C1 (amended): for every stored marker whose TRIMMED content differs
from the current version (covering the empty string, whitespace-only
content, and a missing or unreadable marker file), after the routine runs
with both path resolutions succeeding and no permission errors, the marker
file contains exactly the current version and neither the webview nor the
cache subdirectory exists. -/
theorem c1_invalidation_clears_caches_and_writes_marker (env : Env) (fs : FS)
    (h1 : env.appDataDirOk1 = true) (h2 : env.appDataDirOk2 = true)
    (hw : env.removeWebviewOk = true) (hc : env.removeCacheOk = true)
    (hd : env.createDirOk = true) (hwr : env.writeOk = true)
    (hs : stored_version_trimmed env fs ≠ APP_VERSION) :
    (check_and_clear_cache_if_needed env fs).fs.marker = some APP_VERSION ∧
    (check_and_clear_cache_if_needed env fs).fs.webview = false ∧
    (check_and_clear_cache_if_needed env fs).fs.cache = false := by
  have hg : shouldInvalidate (stored_version_trimmed env fs) = true :=
    (shouldInvalidate_true_iff _).mpr (Or.inr hs)
  rw [check_inv env fs h1 hg]
  simp [h2, hw, hc, hd, hwr]

/-- C1 witness: the amended theorem applied to an all-successful run on a
stale marker. -/
theorem c1_witness :
    stored_version_trimmed envAllOk fsMismatch ≠ APP_VERSION ∧
    ((check_and_clear_cache_if_needed envAllOk fsMismatch).fs.marker = some APP_VERSION ∧
     (check_and_clear_cache_if_needed envAllOk fsMismatch).fs.webview = false ∧
     (check_and_clear_cache_if_needed envAllOk fsMismatch).fs.cache = false) :=
  ⟨by decide,
   c1_invalidation_clears_caches_and_writes_marker envAllOk fsMismatch
     rfl rfl rfl rfl rfl rfl (by decide)⟩

/-- C2: whenever the trimmed stored value equals the current version, the
routine performs no filesystem mutation at all — the final filesystem state
is the initial one. -/
theorem c2_match_no_mutation (env : Env) (fs : FS)
    (h : stored_version_trimmed env fs = APP_VERSION) :
    (check_and_clear_cache_if_needed env fs).fs = fs := by
  cases h1 : env.appDataDirOk1 with
  | false => rw [check_no_appdata env fs h1]
  | true => rw [check_noop env fs h1 h]

/-- C2 witness: a marker holding the current version plus a newline is left
untouched. -/
theorem c2_witness :
    stored_version_trimmed envAllOk fsNewline = APP_VERSION ∧
    (check_and_clear_cache_if_needed envAllOk fsNewline).fs = fsNewline :=
  ⟨by decide, c2_match_no_mutation envAllOk fsNewline (by decide)⟩

/-- C3: every read failure (missing marker file, or a permission or
encoding error) collapses to the empty stored value, which always takes the
invalidation path — the marker write is attempted, and with no permission
errors the caches are deleted and the marker rewritten — and never raises
an error. -/
theorem c3_read_failure_fail_open (env : Env) (fs : FS)
    (hread : fs.marker = none ∨ env.readOk = false) (h1 : env.appDataDirOk1 = true) :
    stored_version_raw env fs = [] ∧
    FsEvent.writeMarker ∈ (check_and_clear_cache_if_needed env fs).events ∧
    check_monadic env fs = Except.ok (check_and_clear_cache_if_needed env fs) ∧
    (env.appDataDirOk2 = true → env.removeWebviewOk = true → env.removeCacheOk = true →
      env.createDirOk = true → env.writeOk = true →
      (check_and_clear_cache_if_needed env fs).fs.webview = false ∧
      (check_and_clear_cache_if_needed env fs).fs.cache = false ∧
      (check_and_clear_cache_if_needed env fs).fs.marker = some APP_VERSION) := by
  have hraw : stored_version_raw env fs = [] := by
    rcases hread with h | h
    · simp [stored_version_raw, read_to_string, h]
    · cases hm : fs.marker <;> simp [stored_version_raw, read_to_string, hm, h]
  have htr : stored_version_trimmed env fs = [] := by
    simp [stored_version_trimmed, hraw, rustTrim]
  have hne : stored_version_trimmed env fs ≠ APP_VERSION := by
    rw [htr]; decide
  have hg : shouldInvalidate (stored_version_trimmed env fs) = true :=
    (shouldInvalidate_true_iff _).mpr (Or.inr hne)
  refine ⟨hraw, ?_, check_monadic_eq_ok env fs, ?_⟩
  · rw [check_inv env fs h1 hg]
    simp
  · intro h2 hw hc hd hwr
    rw [check_inv env fs h1 hg]
    simp [h2, hw, hc, hd, hwr]

/-- C3 witness: a fresh install (no marker file) with all calls succeeding
ends with both caches gone and the marker holding the current version. -/
theorem c3_witness :
    stored_version_raw envAllOk fsFresh = [] ∧
    FsEvent.writeMarker ∈ (check_and_clear_cache_if_needed envAllOk fsFresh).events ∧
    (check_and_clear_cache_if_needed envAllOk fsFresh).fs.webview = false ∧
    (check_and_clear_cache_if_needed envAllOk fsFresh).fs.cache = false ∧
    (check_and_clear_cache_if_needed envAllOk fsFresh).fs.marker = some APP_VERSION := by
  obtain ⟨ha, hb, _, hd⟩ := c3_read_failure_fail_open envAllOk fsFresh (Or.inl rfl) rfl
  obtain ⟨hw, hc, hm⟩ := hd rfl rfl rfl rfl rfl
  exact ⟨ha, hb, hw, hc, hm⟩

/-- C4: the invalidation decision is exactly — trim the stored value, then
invalidate if and only if the trimmed value is empty or differs from the
current version under exact case-sensitive comparison; in particular the
value 2.0.0 followed by a newline counts as a match and causes no mutation,
while 2.0 counts as a mismatch and triggers the write attempt. -/
theorem c4_trimmed_exact_comparison (env : Env) (fs : FS)
    (h1 : env.appDataDirOk1 = true) :
    (FsEvent.writeMarker ∈ (check_and_clear_cache_if_needed env fs).events ↔
      ((stored_version_trimmed env fs).isEmpty = true ∨
        stored_version_trimmed env fs ≠ APP_VERSION)) ∧
    rustTrim ("2.0.0\n".toList) = APP_VERSION ∧
    (check_and_clear_cache_if_needed envAllOk fsNewline).fs = fsNewline ∧
    ("2.0".toList ≠ APP_VERSION ∧
      FsEvent.writeMarker ∈ (check_and_clear_cache_if_needed envAllOk fsTwoZero).events) := by
  refine ⟨?_, by decide, by decide, by decide, by decide⟩
  cases hsi : shouldInvalidate (stored_version_trimmed env fs) with
  | false =>
      have hEq := (shouldInvalidate_false_iff _).mp hsi
      rw [check_noop env fs h1 hEq, hEq]
      exact iff_of_false (by simp) (by decide)
  | true =>
      rw [check_inv env fs h1 hsi]
      exact iff_of_true (by simp) ((shouldInvalidate_true_iff _).mp hsi)

/-- C4 witness: the decision characterisation instantiated at a stale
marker under an all-successful environment. -/
theorem c4_witness :
    envAllOk.appDataDirOk1 = true ∧
    (FsEvent.writeMarker ∈ (check_and_clear_cache_if_needed envAllOk fsMismatch).events ↔
      ((stored_version_trimmed envAllOk fsMismatch).isEmpty = true ∨
        stored_version_trimmed envAllOk fsMismatch ≠ APP_VERSION)) :=
  ⟨rfl, (c4_trimmed_exact_comparison envAllOk fsMismatch rfl).1⟩

/-- C5: the routine never raises a fatal error to its caller — its
presentation in the error monad, in which every operating-system call is
fallible, returns normally on every filesystem state and every combination
of call failures, and agrees with the pure presentation. -/
theorem c5_never_fatal (env : Env) (fs : FS) :
    check_monadic env fs = Except.ok (check_and_clear_cache_if_needed env fs) :=
  check_monadic_eq_ok env fs

/-- C6 counterexample: when both deletions fail on the invalidation path,
the cache directory survives, yet the log contains no failure entry for it
— only the unconditional success message — so the cache deletion error is
not logged or reported. -/
theorem c6_counterexample :
    (check_and_clear_cache_if_needed envBothRemovalsFail fsMismatch).fs.cache = true ∧
    (check_and_clear_cache_if_needed envBothRemovalsFail fsMismatch).logs =
      [LogMsg.versionChanged ("1.9.0".toList), LogMsg.failedWebview "PermissionDenied",
       LogMsg.clearedCache, LogMsg.versionUpdated] := by
  decide

/-- C6 (amended): on the invalidation path, failure to delete the webview
directory does not abort the routine — the cache deletion is still
attempted and succeeds when the directory exists and is deletable, the
webview deletion error is logged, and the marker file is still written; a
cache deletion failure, however, is not logged: the success message is
printed regardless and the error discarded. -/
theorem c6_webview_failure_resilience (env : Env) (fs : FS)
    (h1 : env.appDataDirOk1 = true) (h2 : env.appDataDirOk2 = true)
    (hwfail : env.removeWebviewOk = false) (hwv : fs.webview = true)
    (hs : stored_version_trimmed env fs ≠ APP_VERSION)
    (hd : env.createDirOk = true) (hwr : env.writeOk = true) :
    LogMsg.failedWebview "PermissionDenied" ∈ (check_and_clear_cache_if_needed env fs).logs ∧
    (check_and_clear_cache_if_needed env fs).fs.webview = true ∧
    (fs.cache = true → FsEvent.removeCache ∈ (check_and_clear_cache_if_needed env fs).events) ∧
    (fs.cache = true → env.removeCacheOk = true →
      (check_and_clear_cache_if_needed env fs).fs.cache = false) ∧
    (check_and_clear_cache_if_needed env fs).fs.marker = some APP_VERSION ∧
    (fs.cache = true → env.removeCacheOk = false →
      (check_and_clear_cache_if_needed env fs).fs.cache = true ∧
      LogMsg.clearedCache ∈ (check_and_clear_cache_if_needed env fs).logs) := by
  have hg : shouldInvalidate (stored_version_trimmed env fs) = true :=
    (shouldInvalidate_true_iff _).mpr (Or.inr hs)
  rw [check_inv env fs h1 hg]
  refine ⟨?_, ?_, fun hc => ?_, fun hc hrc => ?_, ?_, fun hc hrc => ⟨?_, ?_⟩⟩ <;>
    simp [h2, hwfail, hwv, hd, hwr, *]

/-- C6 witness: webview deletion fails, cache is deletable — the cache is
deleted, the webview error logged, the marker written. -/
theorem c6_witness :
    stored_version_trimmed envWebviewFails fsMismatch ≠ APP_VERSION ∧
    LogMsg.failedWebview "PermissionDenied"
      ∈ (check_and_clear_cache_if_needed envWebviewFails fsMismatch).logs ∧
    (check_and_clear_cache_if_needed envWebviewFails fsMismatch).fs.webview = true ∧
    (check_and_clear_cache_if_needed envWebviewFails fsMismatch).fs.cache = false ∧
    (check_and_clear_cache_if_needed envWebviewFails fsMismatch).fs.marker = some APP_VERSION := by
  obtain ⟨hlog, hwv, _, hdel, hm, _⟩ :=
    c6_webview_failure_resilience envWebviewFails fsMismatch rfl rfl rfl rfl (by decide) rfl rfl
  exact ⟨by decide, hlog, hwv, hdel rfl rfl, hm⟩

/-- C7: the routine is idempotent — for every initial filesystem state and
every combination of call outcomes held fixed across the runs, a second run
maps the state produced by the first run to itself, so running twice leaves
the filesystem exactly as running once. -/
theorem c7_idempotent (env : Env) (fs : FS) :
    (check_and_clear_cache_if_needed env
        (check_and_clear_cache_if_needed env fs).fs).fs
      = (check_and_clear_cache_if_needed env fs).fs := by
  cases h1 : env.appDataDirOk1 with
  | false =>
      have h := check_no_appdata env fs h1
      rw [h]
      show (check_and_clear_cache_if_needed env fs).fs = fs
      rw [h]
  | true =>
      cases hsi : shouldInvalidate (stored_version_trimmed env fs) with
      | false =>
          have h := check_noop env fs h1 ((shouldInvalidate_false_iff _).mp hsi)
          rw [h]
          show (check_and_clear_cache_if_needed env fs).fs = fs
          rw [h]
      | true =>
          have hfix := congrArg RunResult.fs (check_inv env fs h1 hsi)
          refine check_fixed_point env _ h1 ?_ ?_ ?_ ?_ <;> rw [hfix] <;> dsimp only
          · simp [Bool.or_assoc]
          · simp [Bool.and_assoc]
          · simp [Bool.and_assoc]
          · by_cases hwc : (env.writeOk && (fs.appDataDirExists || env.createDirOk)) = true
            · simp [hwc, Bool.or_assoc]
            · simp only [Bool.not_eq_true] at hwc
              simp [hwc, Bool.or_assoc]

/-- C8: in every execution trace the marker-file write attempt is ordered
strictly after both cache-directory deletion attempts — no trace ever shows
a deletion attempt after a write. -/
theorem c8_write_after_deletions (env : Env) (fs : FS) :
    writeBeforeRemoval (check_and_clear_cache_if_needed env fs).events = false := by
  cases h1 : env.appDataDirOk1 with
  | false =>
      rw [check_no_appdata env fs h1]
      rfl
  | true =>
      cases hsi : shouldInvalidate (stored_version_trimmed env fs) with
      | false =>
          rw [check_noop env fs h1 ((shouldInvalidate_false_iff _).mp hsi)]
          rfl
      | true =>
          rw [check_inv env fs h1 hsi]
          cases h2 : env.appDataDirOk2 <;> cases hw : fs.webview <;> cases hc : fs.cache <;>
            simp [h2, hw, hc, writeBeforeRemoval, containsRemoval]

/-- C9: side effects are confined to the two cache subdirectories, the
marker file and the creation of its parent directory — every other
filesystem path is untouched, the webview and cache directories are only
ever deleted (never created), and the app-data directory is only ever
created (never deleted). -/
theorem c9_frame (env : Env) (fs : FS) :
    (check_and_clear_cache_if_needed env fs).fs.other = fs.other ∧
    ((check_and_clear_cache_if_needed env fs).fs.webview = true → fs.webview = true) ∧
    ((check_and_clear_cache_if_needed env fs).fs.cache = true → fs.cache = true) ∧
    (fs.appDataDirExists = true →
      (check_and_clear_cache_if_needed env fs).fs.appDataDirExists = true) := by
  cases h1 : env.appDataDirOk1 with
  | false =>
      rw [check_no_appdata env fs h1]
      exact ⟨rfl, fun h => h, fun h => h, fun h => h⟩
  | true =>
      cases hsi : shouldInvalidate (stored_version_trimmed env fs) with
      | false =>
          rw [check_noop env fs h1 ((shouldInvalidate_false_iff _).mp hsi)]
          exact ⟨rfl, fun h => h, fun h => h, fun h => h⟩
      | true =>
          rw [check_inv env fs h1 hsi]
          refine ⟨rfl, fun h => ?_, fun h => ?_, fun h => ?_⟩
          · simp only [Bool.and_eq_true] at h
            exact h.1
          · simp only [Bool.and_eq_true] at h
            exact h.1
          · simp [h]

/-- C9 witness: the frame theorem instantiated at a no-op run in which both
directories survive. -/
theorem c9_witness :
    (check_and_clear_cache_if_needed envAllOk fsNewline).fs.other = fsNewline.other ∧
    fsNewline.webview = true ∧ fsNewline.cache = true ∧
    (check_and_clear_cache_if_needed envAllOk fsNewline).fs.appDataDirExists = true := by
  obtain ⟨ho, hw, hc, ha⟩ := c9_frame envAllOk fsNewline
  exact ⟨ho, hw (by decide), hc (by decide), ha rfl⟩

/-- C10: when resolving the application-data directory fails, the routine
performs no filesystem operation at all, emits no log line, and returns
with the state unchanged. -/
theorem c10_no_appdata_noop (env : Env) (fs : FS) (h : env.appDataDirOk1 = false) :
    check_and_clear_cache_if_needed env fs = ⟨fs, [], []⟩ :=
  check_no_appdata env fs h

/-- C10 witness: a concrete run with path resolution failing. -/
theorem c10_witness :
    envNoPath.appDataDirOk1 = false ∧
    check_and_clear_cache_if_needed envNoPath fsMismatch = ⟨fsMismatch, [], []⟩ :=
  ⟨rfl, c10_no_appdata_noop envNoPath fsMismatch rfl⟩

end CertifyApp
